import Mathlib

/-!
Verification of the voice-pitch analysis pipeline (src/Analize.py).

The script extracts a pitch contour, clusters the pitch samples into two
speaker groups with 2-means, computes per-group statistics, classifies a
vocal register from the group mean via fixed thresholds, and renders a
density plot.  Pitch samples are modelled as rationals; a frame-wise F0
estimate is an `Option ℚ` (with `none` standing for a NaN / unvoiced
frame).  The external k-means implementation (sklearn, out of scope of
the repository) is modelled as an abstract algorithm mapping a seed and
the data to labels and centroids, together with sklearn's documented
input validation (fitting fewer samples than clusters raises).
-/

namespace Analize

/-- A single frame of the frame-wise F0 estimate returned by
librosa.pyin: `none` models a NaN (unvoiced) frame, `some v` a voiced
frame with pitch `v` Hz. -/
abbrev F0Frame := Option ℚ

/-- extract_pitch (src/Analize.py line 32): the boolean-mask selection
pitch_values = f0[~np.isnan(f0)] keeps, in order, exactly the frames
that are not NaN; the resulting PitchSeries is the list of their
values. -/
def extract_pitch (f0 : List F0Frame) : List ℚ :=
  (f0.filter Option.isSome).filterMap (fun x => x)

/-- The output of one k-means fit on 1-D data: a cluster label for each
input sample (in input order) and the two cluster centers
(kmeans.cluster_centers_.flatten()). -/
structure KMeansResult where
  labels : List (Fin 2)
  centroids : Fin 2 → ℚ

/-- An abstract 2-means algorithm: given the RNG seed actually used for
the fit and the 1-D data, it produces labels and centroids.  This
models the out-of-scope sklearn KMeans implementation, which is a
deterministic function of the seed and the data. -/
abbrev KMeansAlgo := ℕ → List ℚ → KMeansResult

/-- Model of KMeans(n_clusters=2, random_state=...).fit_predict.
sklearn validates that n_samples >= n_clusters and raises ValueError
otherwise; with random_state set to an integer the fit is seeded with
it, while random_state=None draws the seed from the ambient global
RNG state. -/
def kmeans_fit_predict (algo : KMeansAlgo) (random_state : Option ℕ)
    (globalRng : ℕ) (data : List ℚ) : Except String KMeansResult :=
  if data.length < 2 then
    Except.error "n_samples should be >= n_clusters"
  else
    Except.ok (algo (random_state.getD globalRng) data)

/-- np.argsort on the two flattened centroids (src/Analize.py line 45):
the pair of cluster indices in ascending order of centroid value (ties
keep the original order). -/
def argsort2 (c : Fin 2 → ℚ) : Fin 2 × Fin 2 :=
  if c 1 < c 0 then (1, 0) else (0, 1)

/-- Boolean-mask selection pitch_values[speaker_labels == l]
(src/Analize.py lines 48-49): the pitch samples whose cluster label is
`l`, in input order. -/
def maskSelect (pitch : List ℚ) (labels : List (Fin 2)) (l : Fin 2) : List ℚ :=
  ((pitch.zip labels).filter (fun pl => pl.2 == l)).map Prod.fst

/-- The speaker_segments dict (src/Analize.py lines 47-50): the samples
of the lower-centroid cluster under key 'Masculino' and those of the
higher-centroid cluster under key 'Femenino'. -/
structure SpeakerSegments where
  masculino : List ℚ
  femenino : List ℚ
  deriving DecidableEq

/-- Lines 44-50 of src/Analize.py: order the clusters by centroid and
build the two labelled segments from the k-means result. -/
def segmentsOf (pitch : List ℚ) (r : KMeansResult) : SpeakerSegments :=
  { masculino := maskSelect pitch r.labels (argsort2 r.centroids).1
    femenino := maskSelect pitch r.labels (argsort2 r.centroids).2 }

/-- identify_speakers (src/Analize.py lines 35-52): return None for an
empty PitchSeries, otherwise run KMeans(n_clusters=2, random_state=42)
and split the samples into the Masculino / Femenino segments.  The
`globalRng` argument is the ambient RNG state sklearn would consult if
random_state were None; any exception raised by the library propagates
as an `Except.error`. -/
def identify_speakers (algo : KMeansAlgo) (globalRng : ℕ)
    (pitch_values : List ℚ) : Except String (Option SpeakerSegments) :=
  if pitch_values.length = 0 then
    Except.ok none
  else
    match kmeans_fit_predict algo (some 42) globalRng pitch_values with
    | Except.error e => Except.error e
    | Except.ok r => Except.ok (some (segmentsOf pitch_values r))

/-- Arithmetic mean np.mean over a list of rationals (the mean of the
empty list is irrelevant here; with rational division it is 0). -/
def qmean (l : List ℚ) : ℚ := l.sum / l.length

/-- tipo_voz assignment of analyze_tone_characteristics
(src/Analize.py lines 70-83): fixed strict thresholds on the group's
mean pitch.  'Bajo' / 'Barítono' / 'Tenor' are Spanish for Bass /
Baritone / Tenor; 'Mezzosoprano' for Mezzo-soprano. -/
def tipo_voz_of (speaker : String) (pitch_medio : ℚ) : String :=
  if speaker = "Masculino" then
    if pitch_medio < 110 then "Bajo"
    else if pitch_medio < 130 then "Barítono"
    else "Tenor"
  else
    if pitch_medio < 220 then "Contralto"
    else if pitch_medio < 260 then "Mezzosoprano"
    else "Soprano"

/-- The per-speaker stats dict of analyze_tone_characteristics
(src/Analize.py lines 62-68 plus the tipo_voz field).  np.std is an
irrational square root, so the field carried here is its square, the
population variance; the other fields are exact. -/
structure ToneStats where
  pitch_medio : ℚ
  pitch_var : ℚ
  pitch_min : ℚ
  pitch_max : ℚ
  rango_tonal : ℚ
  tipo_voz : String
  deriving DecidableEq

/-- One iteration of the loop of analyze_tone_characteristics
(src/Analize.py lines 61-85) for a speaker and its pitch list. -/
def analyze_tone_one (speaker : String) (pitches : List ℚ) : ToneStats :=
  { pitch_medio := qmean pitches
    pitch_var := qmean (pitches.map (fun x => (x - qmean pitches) ^ 2))
    pitch_min := pitches.min?.getD 0
    pitch_max := pitches.max?.getD 0
    rango_tonal := pitches.max?.getD 0 - pitches.min?.getD 0
    tipo_voz := tipo_voz_of speaker (qmean pitches) }

/-- analyze_tone_characteristics (src/Analize.py lines 54-87): None
when speaker_segments is None, otherwise the stats of the Masculino
and Femenino groups (dict iteration is in insertion order). -/
def analyze_tone_characteristics (segs : Option SpeakerSegments) :
    Option (ToneStats × ToneStats) :=
  match segs with
  | none => none
  | some s =>
      some (analyze_tone_one "Masculino" s.masculino,
            analyze_tone_one "Femenino" s.femenino)

/-- Model of scipy.stats.gaussian_kde applied to a group: scipy raises
for a dataset with fewer than two points (the density estimate is
undefined), and succeeds otherwise.  (Other singular-data failures of
scipy are not modelled; only this sufficient failure condition is
used.) -/
def gaussian_kde_check (pitches : List ℚ) : Except String Unit :=
  if pitches.length < 2 then
    Except.error "dataset input should have multiple elements"
  else
    Except.ok ()

/-- plot_pitch_distribution (src/Analize.py lines 89-107): None when
speaker_segments is None; otherwise a figure is built by running
gaussian_kde on each group in turn ('Masculino' first), and any
exception raised by the density estimator propagates.  The figure
itself is opaque, modelled as Unit. -/
def plot_pitch_distribution (segs : Option SpeakerSegments) :
    Except String (Option Unit) :=
  match segs with
  | none => Except.ok none
  | some s =>
      match gaussian_kde_check s.masculino with
      | Except.error e => Except.error e
      | Except.ok _ =>
          match gaussian_kde_check s.femenino with
          | Except.error e => Except.error e
          | Except.ok _ => Except.ok (some ())

/-- One visible output of the streamlit run: the textual results block
(lines 142-148 of src/Analize.py), the rendered plot (line 154), or an
error banner (st.error, lines 156 and 159). -/
inductive Output where
  | results : ToneStats × ToneStats → Output
  | plot : Output
  | errorMsg : String → Output
  deriving DecidableEq

/-- Lines 134-159 of src/Analize.py, from the point where the
PitchSeries is known: identify speakers, analyze tones, and either
show the results followed by the plot, or an error banner.  Streamlit
renders incrementally, so outputs written before an exception stay on
the page: an exception after the results block appends the generic
error banner without removing the results. -/
def mainOutputs (algo : KMeansAlgo) (globalRng : ℕ) (pitch : List ℚ) :
    List Output :=
  match identify_speakers algo globalRng pitch with
  | Except.error e => [Output.errorMsg ("Error al procesar el archivo: " ++ e)]
  | Except.ok segsOpt =>
      match analyze_tone_characteristics segsOpt with
      | none => [Output.errorMsg "No se pudieron detectar voces claramente en el audio."]
      | some ta =>
          Output.results ta ::
            match plot_pitch_distribution segsOpt with
            | Except.ok (some _) => [Output.plot]
            | Except.ok none => []
            | Except.error e => [Output.errorMsg ("Error al procesar el archivo: " ++ e)]


/-! ### Shared helper lemmas -/

theorem tipo_masc_lt110 (m : ℚ) (h : m < 110) :
    tipo_voz_of "Masculino" m = "Bajo" := by
  unfold tipo_voz_of
  rw [if_pos rfl, if_pos h]

theorem tipo_masc_mid (m : ℚ) (h1 : ¬ m < 110) (h2 : m < 130) :
    tipo_voz_of "Masculino" m = "Barítono" := by
  unfold tipo_voz_of
  rw [if_pos rfl, if_neg h1, if_pos h2]

theorem tipo_masc_ge130 (m : ℚ) (h : ¬ m < 130) :
    tipo_voz_of "Masculino" m = "Tenor" := by
  have h1 : ¬ m < 110 := fun hc => h (by linarith)
  unfold tipo_voz_of
  rw [if_pos rfl, if_neg h1, if_neg h]

theorem tipo_fem_lt220 (m : ℚ) (h : m < 220) :
    tipo_voz_of "Femenino" m = "Contralto" := by
  unfold tipo_voz_of
  rw [if_neg (by decide), if_pos h]

theorem tipo_fem_mid (m : ℚ) (h1 : ¬ m < 220) (h2 : m < 260) :
    tipo_voz_of "Femenino" m = "Mezzosoprano" := by
  unfold tipo_voz_of
  rw [if_neg (by decide), if_neg h1, if_pos h2]

theorem tipo_fem_ge260 (m : ℚ) (h : ¬ m < 260) :
    tipo_voz_of "Femenino" m = "Soprano" := by
  have h1 : ¬ m < 220 := fun hc => h (by linarith)
  unfold tipo_voz_of
  rw [if_neg (by decide), if_neg h1, if_neg h]

theorem tipo_masc_bajo_iff (m : ℚ) :
    tipo_voz_of "Masculino" m = "Bajo" ↔ m < 110 := by
  constructor
  · intro h
    by_contra hm
    by_cases h2 : m < 130
    · rw [tipo_masc_mid m hm h2] at h; exact absurd h (by decide)
    · rw [tipo_masc_ge130 m h2] at h; exact absurd h (by decide)
  · exact tipo_masc_lt110 m

theorem tipo_masc_baritono_iff (m : ℚ) :
    tipo_voz_of "Masculino" m = "Barítono" ↔ 110 ≤ m ∧ m < 130 := by
  constructor
  · intro h
    by_cases h1 : m < 110
    · rw [tipo_masc_lt110 m h1] at h; exact absurd h (by decide)
    · by_cases h2 : m < 130
      · exact ⟨not_lt.mp h1, h2⟩
      · rw [tipo_masc_ge130 m h2] at h; exact absurd h (by decide)
  · exact fun hc => tipo_masc_mid m (not_lt.mpr hc.1) hc.2

theorem tipo_masc_tenor_iff (m : ℚ) :
    tipo_voz_of "Masculino" m = "Tenor" ↔ 130 ≤ m := by
  constructor
  · intro h
    by_cases h1 : m < 110
    · rw [tipo_masc_lt110 m h1] at h; exact absurd h (by decide)
    · by_cases h2 : m < 130
      · rw [tipo_masc_mid m h1 h2] at h; exact absurd h (by decide)
      · exact not_lt.mp h2
  · exact fun hc => tipo_masc_ge130 m (not_lt.mpr hc)

theorem tipo_fem_contralto_iff (m : ℚ) :
    tipo_voz_of "Femenino" m = "Contralto" ↔ m < 220 := by
  constructor
  · intro h
    by_contra hm
    by_cases h2 : m < 260
    · rw [tipo_fem_mid m hm h2] at h; exact absurd h (by decide)
    · rw [tipo_fem_ge260 m h2] at h; exact absurd h (by decide)
  · exact tipo_fem_lt220 m

theorem tipo_fem_mezzo_iff (m : ℚ) :
    tipo_voz_of "Femenino" m = "Mezzosoprano" ↔ 220 ≤ m ∧ m < 260 := by
  constructor
  · intro h
    by_cases h1 : m < 220
    · rw [tipo_fem_lt220 m h1] at h; exact absurd h (by decide)
    · by_cases h2 : m < 260
      · exact ⟨not_lt.mp h1, h2⟩
      · rw [tipo_fem_ge260 m h2] at h; exact absurd h (by decide)
  · exact fun hc => tipo_fem_mid m (not_lt.mpr hc.1) hc.2

theorem tipo_fem_soprano_iff (m : ℚ) :
    tipo_voz_of "Femenino" m = "Soprano" ↔ 260 ≤ m := by
  constructor
  · intro h
    by_cases h1 : m < 220
    · rw [tipo_fem_lt220 m h1] at h; exact absurd h (by decide)
    · by_cases h2 : m < 260
      · rw [tipo_fem_mid m h1 h2] at h; exact absurd h (by decide)
      · exact not_lt.mp h2
  · exact fun hc => tipo_fem_ge260 m (not_lt.mpr hc)


theorem identify_speakers_ok_elim (algo : KMeansAlgo) (rng : ℕ) (pitch : List ℚ)
    (segs : SpeakerSegments)
    (hok : identify_speakers algo rng pitch = Except.ok (some segs)) :
    segs = segmentsOf pitch (algo 42 pitch) := by
  unfold identify_speakers kmeans_fit_predict at hok
  by_cases h0 : pitch.length = 0
  · rw [if_pos h0] at hok
    simp at hok
  · rw [if_neg h0] at hok
    by_cases h2 : pitch.length < 2
    · rw [if_pos h2] at hok
      exact Except.noConfusion hok
    · rw [if_neg h2] at hok
      injection hok with h3
      injection h3 with h4
      exact h4.symm

/-- C1: register classification is a deterministic function of the group
mean alone, via the fixed strict thresholds of
analyze_tone_characteristics: a Masculino group with mean < 110 is
'Bajo' (Bass), with 110 ≤ mean < 130 'Barítono' (Baritone), with
130 ≤ mean 'Tenor'; a Femenino group with mean < 220 is 'Contralto',
with 220 ≤ mean < 260 'Mezzosoprano' (Mezzo-soprano), with 260 ≤ mean
'Soprano'; in particular mean 105 gives 'Bajo', 128 'Barítono' and 130
'Tenor'. -/
theorem register_thresholds :
    (∀ (sp : String) (g1 g2 : List ℚ), qmean g1 = qmean g2 →
        (analyze_tone_one sp g1).tipo_voz = (analyze_tone_one sp g2).tipo_voz)
    ∧ (∀ m : ℚ, m < 110 → tipo_voz_of "Masculino" m = "Bajo")
    ∧ (∀ m : ℚ, 110 ≤ m → m < 130 → tipo_voz_of "Masculino" m = "Barítono")
    ∧ (∀ m : ℚ, 130 ≤ m → tipo_voz_of "Masculino" m = "Tenor")
    ∧ (∀ m : ℚ, m < 220 → tipo_voz_of "Femenino" m = "Contralto")
    ∧ (∀ m : ℚ, 220 ≤ m → m < 260 → tipo_voz_of "Femenino" m = "Mezzosoprano")
    ∧ (∀ m : ℚ, 260 ≤ m → tipo_voz_of "Femenino" m = "Soprano")
    ∧ tipo_voz_of "Masculino" 105 = "Bajo"
    ∧ tipo_voz_of "Masculino" 128 = "Barítono"
    ∧ tipo_voz_of "Masculino" 130 = "Tenor" := by
  refine ⟨?_, ?_, ?_, ?_, ?_, ?_, ?_, by decide, by decide, by decide⟩
  · intro sp g1 g2 hm
    show tipo_voz_of sp (qmean g1) = tipo_voz_of sp (qmean g2)
    rw [hm]
  · exact fun m h => tipo_masc_lt110 m h
  · exact fun m h1 h2 => tipo_masc_mid m (not_lt.mpr h1) h2
  · exact fun m h => tipo_masc_ge130 m (not_lt.mpr h)
  · exact fun m h => tipo_fem_lt220 m h
  · exact fun m h1 h2 => tipo_fem_mid m (not_lt.mpr h1) h2
  · exact fun m h => tipo_fem_ge260 m (not_lt.mpr h)

/-- C2 counterexample: a Masculino group with mean exactly 130 (the
Barítono/Tenor boundary) is classified 'Tenor', the bin at and above
the threshold, not 'Barítono', the bin below it, refuting the claim
that a boundary mean gets the label of the lower of the two adjacent
bins. -/
theorem boundary_not_lower_bin :
    tipo_voz_of "Masculino" 130 ≠ "Barítono"
    ∧ tipo_voz_of "Masculino" 130 = "Tenor" := by
  exact ⟨by decide, by decide⟩

/-- C2 amended: the register bins are ordered, half-open and
non-overlapping (for every mean, each label holds exactly when the
mean lies in its bin), and every boundary value (110 or 130 for
Masculino, 220 or 260 for Femenino) belongs to the UPPER of the two
adjacent bins: the strict < comparisons send a mean equal to a
threshold to the label of the bin at and above that threshold. -/
theorem register_bins_partition_upper :
    (∀ m : ℚ,
        (tipo_voz_of "Masculino" m = "Bajo" ↔ m < 110)
      ∧ (tipo_voz_of "Masculino" m = "Barítono" ↔ 110 ≤ m ∧ m < 130)
      ∧ (tipo_voz_of "Masculino" m = "Tenor" ↔ 130 ≤ m)
      ∧ (tipo_voz_of "Femenino" m = "Contralto" ↔ m < 220)
      ∧ (tipo_voz_of "Femenino" m = "Mezzosoprano" ↔ 220 ≤ m ∧ m < 260)
      ∧ (tipo_voz_of "Femenino" m = "Soprano" ↔ 260 ≤ m))
    ∧ tipo_voz_of "Masculino" 110 = "Barítono"
    ∧ tipo_voz_of "Masculino" 130 = "Tenor"
    ∧ tipo_voz_of "Femenino" 220 = "Mezzosoprano"
    ∧ tipo_voz_of "Femenino" 260 = "Soprano" :=
  ⟨fun m => ⟨tipo_masc_bajo_iff m, tipo_masc_baritono_iff m, tipo_masc_tenor_iff m,
     tipo_fem_contralto_iff m, tipo_fem_mezzo_iff m, tipo_fem_soprano_iff m⟩,
   by decide, by decide, by decide, by decide⟩

/-- C4: on the empty PitchSeries identify_speakers returns the explicit
None result, it does so without invoking the clustering algorithm (the
result does not depend on the k-means algorithm or on the RNG state),
and the run reports the explicit no-voices banner to the user instead
of letting an exception escape. -/
theorem empty_pitch_explicit_result :
    ∀ (algo algo2 : KMeansAlgo) (rng rng2 : ℕ),
      identify_speakers algo rng [] = Except.ok none
      ∧ identify_speakers algo rng [] = identify_speakers algo2 rng2 []
      ∧ mainOutputs algo rng []
          = [Output.errorMsg "No se pudieron detectar voces claramente en el audio."] :=
  fun _ _ _ _ => ⟨rfl, rfl, rfl⟩

/-- C9: the k-means fit inside identify_speakers is run with the fixed
seed 42 (random_state=42), so the outcome is independent of the
ambient global RNG state: two invocations on the same PitchSeries
produce identical speaker segments whatever RNG states the two runs
happen to have. -/
theorem identify_speakers_reproducible (algo : KMeansAlgo) (rng1 rng2 : ℕ)
    (pitch : List ℚ) :
    identify_speakers algo rng1 pitch = identify_speakers algo rng2 pitch := rfl

/-- C10: the no-exception guard of identify_speakers covers only the
empty PitchSeries: on a one-sample PitchSeries the guard is bypassed,
2-cluster k-means is invoked on a single point, and sklearn's
validation raises (the call never returns an ok result). -/
theorem single_sample_raises (algo : KMeansAlgo) (rng : ℕ) (p : ℚ) :
    identify_speakers algo rng [p] = Except.error "n_samples should be >= n_clusters"
    ∧ ∀ o : Option SpeakerSegments, identify_speakers algo rng [p] ≠ Except.ok o :=
  ⟨rfl, fun _ h => Except.noConfusion h⟩


theorem argsort2_lt (c : Fin 2 → ℚ) (h : c 0 ≠ c 1) :
    c (argsort2 c).1 < c (argsort2 c).2 := by
  unfold argsort2
  split
  · next hlt => exact hlt
  · next hge => exact lt_of_le_of_ne (not_lt.mp hge) h

theorem argsort2_cases (c : Fin 2 → ℚ) :
    argsort2 c = (1, 0) ∨ argsort2 c = (0, 1) := by
  unfold argsort2
  split
  · exact Or.inl rfl
  · exact Or.inr rfl

theorem segmentsOf_perm (pitch : List ℚ) (r : KMeansResult)
    (h : r.labels.length = pitch.length) :
    ((segmentsOf pitch r).masculino ++ (segmentsOf pitch r).femenino).Perm pitch := by
  have hab : ∀ x : Fin 2,
      (x == (argsort2 r.centroids).2) = !(x == (argsort2 r.centroids).1) := by
    rcases argsort2_cases r.centroids with h1 | h1 <;> rw [h1] <;> decide
  have hz : (pitch.zip r.labels).map Prod.fst = pitch :=
    List.map_fst_zip pitch r.labels (le_of_eq h.symm)
  have hfilter : (pitch.zip r.labels).filter
        (fun pl => pl.2 == (argsort2 r.centroids).2)
      = (pitch.zip r.labels).filter
        (fun pl => !(pl.2 == (argsort2 r.centroids).1)) :=
    List.filter_congr (fun x _ => hab x.2)
  show (((pitch.zip r.labels).filter
        (fun pl => pl.2 == (argsort2 r.centroids).1)).map Prod.fst
      ++ ((pitch.zip r.labels).filter
        (fun pl => pl.2 == (argsort2 r.centroids).2)).map Prod.fst).Perm pitch
  rw [hfilter, ← List.map_append]
  have hperm := (List.filter_append_perm
      (fun pl : ℚ × Fin 2 => pl.2 == (argsort2 r.centroids).1)
      (pitch.zip r.labels)).map Prod.fst
  rw [hz] at hperm
  exact hperm

/-- C3: whenever identify_speakers clusters a PitchSeries into two
groups (an ok-some result), and the k-means centroids are the cluster
means with the two centroids distinct (which the converged fit on at
least two distinct values guarantees), the group labelled 'Masculino'
is exactly the cluster with the smaller mean: its mean is strictly
below the mean of the group labelled 'Femenino'. -/
theorem lower_centroid_is_male (algo : KMeansAlgo) (rng : ℕ) (pitch : List ℚ)
    (segs : SpeakerSegments)
    (hok : identify_speakers algo rng pitch = Except.ok (some segs))
    (hmean : ∀ i : Fin 2, (algo 42 pitch).centroids i
        = qmean (maskSelect pitch (algo 42 pitch).labels i))
    (hne : (algo 42 pitch).centroids 0 ≠ (algo 42 pitch).centroids 1) :
    qmean segs.masculino < qmean segs.femenino := by
  have hseg := identify_speakers_ok_elim algo rng pitch segs hok
  subst hseg
  have hlt := argsort2_lt (algo 42 pitch).centroids hne
  show qmean (maskSelect pitch (algo 42 pitch).labels
        (argsort2 (algo 42 pitch).centroids).1)
      < qmean (maskSelect pitch (algo 42 pitch).labels
        (argsort2 (algo 42 pitch).centroids).2)
  rw [← hmean, ← hmean]
  exact hlt

/-- C3 witness: a two-sample PitchSeries [100, 300] clustered into
[100] (Masculino) and [300] (Femenino) satisfies the conclusion. -/
theorem lower_centroid_is_male_witness :
    qmean (SpeakerSegments.mk [100] [300]).masculino
      < qmean (SpeakerSegments.mk [100] [300]).femenino :=
  lower_centroid_is_male
    (fun _ _ => ⟨[0, 1], fun i => if i = 0 then 100 else 300⟩) 0
    [100, 300] ⟨[100], [300]⟩ rfl
    (by intro i; fin_cases i <;> norm_num [qmean, maskSelect]) (by decide)

/-- C6: the two speaker groups produced by an ok-some run of
identify_speakers partition the clustered input: given that k-means
labels each of the samples (labels as long as the input), the
concatenation of the Masculino and Femenino groups is a permutation
of the input PitchSeries, so every sample lands in exactly one group
and none is duplicated or dropped. -/
theorem speaker_segments_partition (algo : KMeansAlgo) (rng : ℕ)
    (pitch : List ℚ) (segs : SpeakerSegments)
    (hlen : (algo 42 pitch).labels.length = pitch.length)
    (hok : identify_speakers algo rng pitch = Except.ok (some segs)) :
    (segs.masculino ++ segs.femenino).Perm pitch := by
  have hseg := identify_speakers_ok_elim algo rng pitch segs hok
  subst hseg
  exact segmentsOf_perm pitch (algo 42 pitch) hlen

/-- C6 witness: a run on [100, 300] in which every sample is labelled
with cluster 0 yields groups [100, 300] and [], whose concatenation
is a permutation of the input. -/
theorem speaker_segments_partition_witness :
    ((SpeakerSegments.mk [100, 300] []).masculino
      ++ (SpeakerSegments.mk [100, 300] []).femenino).Perm [100, 300] :=
  speaker_segments_partition
    (fun _ d => ⟨d.map (fun _ => 0), fun _ => 0⟩) 0
    [100, 300] ⟨[100, 300], []⟩ rfl rfl


/-- C7: for every non-empty group, the ToneStats satisfy
rango_tonal = pitch_max − pitch_min exactly, where pitch_min and
pitch_max are the group minimum and maximum: both are members of the
group and bound every member. -/
theorem tone_stats_range_exact (speaker : String) (pitches : List ℚ)
    (h : pitches ≠ []) :
    (analyze_tone_one speaker pitches).rango_tonal
        = (analyze_tone_one speaker pitches).pitch_max
          - (analyze_tone_one speaker pitches).pitch_min
    ∧ (analyze_tone_one speaker pitches).pitch_min ∈ pitches
    ∧ (analyze_tone_one speaker pitches).pitch_max ∈ pitches
    ∧ ∀ x ∈ pitches, (analyze_tone_one speaker pitches).pitch_min ≤ x
        ∧ x ≤ (analyze_tone_one speaker pitches).pitch_max := by
  obtain ⟨mn, hmn⟩ : ∃ mn, pitches.min? = some mn := by
    cases hm : pitches.min? with
    | none => exact absurd (List.min?_eq_none_iff.mp hm) h
    | some v => exact ⟨v, rfl⟩
  obtain ⟨mx, hmx⟩ : ∃ mx, pitches.max? = some mx := by
    cases hm : pitches.max? with
    | none => exact absurd (List.max?_eq_none_iff.mp hm) h
    | some v => exact ⟨v, rfl⟩
  have hminmem : mn ∈ pitches := List.min?_mem (fun a b => min_choice a b) hmn
  have hmaxmem : mx ∈ pitches := List.max?_mem (fun a b => max_choice a b) hmx
  have hminle : ∀ b, b ∈ pitches → mn ≤ b :=
    (List.le_min?_iff (fun a b c => le_min_iff) hmn).mp (le_refl mn)
  have hmaxge : ∀ b, b ∈ pitches → b ≤ mx :=
    (List.max?_le_iff (fun a b c => max_le_iff) hmx).mp (le_refl mx)
  refine ⟨rfl, ?_, ?_, ?_⟩
  · show pitches.min?.getD 0 ∈ pitches
    rw [hmn]
    exact hminmem
  · show pitches.max?.getD 0 ∈ pitches
    rw [hmx]
    exact hmaxmem
  · intro x hx
    constructor
    · show pitches.min?.getD 0 ≤ x
      rw [hmn]
      exact hminle x hx
    · show x ≤ pitches.max?.getD 0
      rw [hmx]
      exact hmaxge x hx

/-- C7 witness: the group [7, 3] has min 3, max 7 and rango_tonal 4. -/
theorem tone_stats_range_exact_witness :
    (analyze_tone_one "Masculino" [7, 3]).rango_tonal
        = (analyze_tone_one "Masculino" [7, 3]).pitch_max
          - (analyze_tone_one "Masculino" [7, 3]).pitch_min
    ∧ (analyze_tone_one "Masculino" [7, 3]).pitch_min ∈ ([7, 3] : List ℚ)
    ∧ (analyze_tone_one "Masculino" [7, 3]).pitch_max ∈ ([7, 3] : List ℚ)
    ∧ ∀ x ∈ ([7, 3] : List ℚ),
        (analyze_tone_one "Masculino" [7, 3]).pitch_min ≤ x
        ∧ x ≤ (analyze_tone_one "Masculino" [7, 3]).pitch_max :=
  tone_stats_range_exact "Masculino" [7, 3] (by simp)

theorem extract_pitch_cons_none (t : List F0Frame) :
    extract_pitch (none :: t) = extract_pitch t := by
  simp [extract_pitch]

theorem extract_pitch_cons_some (a : ℚ) (t : List F0Frame) :
    extract_pitch (some a :: t) = a :: extract_pitch t := by
  simp [extract_pitch]

/-- C8: extract_pitch returns exactly the subsequence of non-NaN values
of the frame-wise F0 estimate: wrapping its output back in `some`
yields an order-preserving sublist of the frame list, and every value
is kept with exactly the multiplicity of the voiced frames carrying
it (so all NaN frames are dropped and nothing else is lost). -/
theorem extract_pitch_exact (f0 : List F0Frame) :
    ((extract_pitch f0).map Option.some).Sublist f0
    ∧ ∀ x : ℚ, (extract_pitch f0).count x = f0.count (some x) := by
  constructor
  · induction f0 with
    | nil => simp [extract_pitch]
    | cons o t ih =>
      cases o with
      | none =>
        rw [extract_pitch_cons_none]
        exact ih.cons none
      | some a =>
        rw [extract_pitch_cons_some]
        exact ih.cons₂ (some a)
  · intro x
    induction f0 with
    | nil => rfl
    | cons o t ih =>
      cases o with
      | none =>
        rw [extract_pitch_cons_none, List.count_cons]
        simp [ih]
      | some a =>
        rw [extract_pitch_cons_some, List.count_cons, List.count_cons, ih]
        simp

theorem mainOutputs_ok_some (algo : KMeansAlgo) (rng : ℕ) (pitch : List ℚ)
    (segs : SpeakerSegments)
    (hok : identify_speakers algo rng pitch = Except.ok (some segs)) :
    mainOutputs algo rng pitch
      = Output.results (analyze_tone_one "Masculino" segs.masculino,
            analyze_tone_one "Femenino" segs.femenino) ::
          (match plot_pitch_distribution (some segs) with
           | Except.ok (some _) => [Output.plot]
           | Except.ok none => []
           | Except.error e =>
               [Output.errorMsg ("Error al procesar el archivo: " ++ e)]) := by
  unfold mainOutputs
  rw [hok]
  rfl

theorem plot_error_of_small (segs : SpeakerSegments)
    (hsmall : segs.masculino.length < 2 ∨ segs.femenino.length < 2) :
    ∃ e, plot_pitch_distribution (some segs) = Except.error e := by
  have hred : plot_pitch_distribution (some segs)
      = (match gaussian_kde_check segs.masculino with
         | Except.error e => Except.error e
         | Except.ok _ =>
             match gaussian_kde_check segs.femenino with
             | Except.error e => Except.error e
             | Except.ok _ => Except.ok (some ())) := rfl
  rw [hred]
  unfold gaussian_kde_check
  by_cases hm : segs.masculino.length < 2
  · rw [if_pos hm]
    exact ⟨_, rfl⟩
  · rcases hsmall with hs | hs
    · exact absurd hs hm
    · rw [if_neg hm, if_pos hs]
      exact ⟨_, rfl⟩

/-- C5: when a clustered run reaches the report but a group has fewer
than two points (so the density estimate behind the plot is
undefined and rendering fails), the run still shows the textual
results block and simply shows no plot: the failure does not abort
the already-produced report. -/
theorem plot_failure_degrades (algo : KMeansAlgo) (rng : ℕ) (pitch : List ℚ)
    (segs : SpeakerSegments)
    (hok : identify_speakers algo rng pitch = Except.ok (some segs))
    (hsmall : segs.masculino.length < 2 ∨ segs.femenino.length < 2) :
    (∃ ta, Output.results ta ∈ mainOutputs algo rng pitch)
    ∧ Output.plot ∉ mainOutputs algo rng pitch := by
  obtain ⟨e, he⟩ := plot_error_of_small segs hsmall
  rw [mainOutputs_ok_some algo rng pitch segs hok, he]
  exact ⟨⟨_, List.mem_cons_self _ _⟩, by simp⟩

/-- C5 witness: the PitchSeries [100, 300] splits into the one-point
groups [100] and [300]; the run shows the results and no plot. -/
theorem plot_failure_degrades_witness :
    (∃ ta, Output.results ta ∈ mainOutputs
        (fun _ _ => ⟨[0, 1], fun i => if i = 0 then 100 else 300⟩) 0 [100, 300])
    ∧ Output.plot ∉ mainOutputs
        (fun _ _ => ⟨[0, 1], fun i => if i = 0 then 100 else 300⟩) 0 [100, 300] :=
  plot_failure_degrades
    (fun _ _ => ⟨[0, 1], fun i => if i = 0 then 100 else 300⟩) 0
    [100, 300] ⟨[100], [300]⟩ rfl (Or.inl (by decide))

end Analize
